import Mathlib

/-!
Verification of the PBX portal core against its specification.

Shallow embedding of the relevant program parts:
- src/services/did_service.py        (E.164 validation, DID import and state machine)
- src/models/tenant.py               (extension allocator)
- src/services/apply_service.py      (validator, backup and rollback, legacy apply)
- src/services/apply_service_enhanced.py (safe apply orchestrator)
- src/models/apply_audit_log.py      (ApplyJob record and status lifecycle)
- src/config_generator/atomic_writer.py  (atomic file publisher)
- src/config_generator/outbound_policy.py (outbound policy generator)

Database sessions are embedded as explicit state (lists of records); fallible
Python code returns Except or pairs the new state with an outcome; points where
the environment may fail (filesystem, reload, locks) are driven by explicit
oracle records so that every control-flow path of the source is a case of the
Lean definition.
-/

namespace PBXPortal

/-! ### E.164 validation (src/services/did_service.py, E164_REGEX) -/

/-- Strip of a single trailing newline, mirroring the semantics of the dollar
anchor in Python regular expressions: the dollar matches at the end of the
string or just before a newline at the end of the string. -/
def pyDollarStrip (l : List Char) : List Char :=
  if l.getLast? = some '\n' then l.dropLast else l

/-- Matcher for the regular expression of the source, backslash-plus followed
by a character class 1 to 9 followed by 1 to 14 digits, applied to the whole
input. The digit class is modelled as ASCII digits 0 to 9; non-ASCII inputs
are outside the modelled alphabet. -/
def e164Match : List Char → Bool
  | c :: d :: rest =>
      decide (c = '+') && decide ('1' ≤ d) && decide (d ≤ '9') && rest.all Char.isDigit &&
      decide (1 ≤ rest.length) && decide (rest.length ≤ 14)
  | _ => false

namespace DIDService

/-- Embedding of DIDService.validate_e164: bool(E164_REGEX.match(number)). -/
def validate_e164 (s : String) : Bool :=
  e164Match (pyDollarStrip s.data)

end DIDService

/-- Predicate written from the words of the spec glossary: a plus sign
followed by 2 to 15 digits. Used only to compare the spec with the code. -/
def specE164 (s : String) : Bool :=
  match s.data with
  | '+' :: ds => ds.all Char.isDigit && decide (2 ≤ ds.length) && decide (ds.length ≤ 15)
  | _ => false

/-! ### DID data model (src/models/phone_number.py, did_assignment.py) -/

/-- Status of a phone number in the DID lifecycle. -/
inductive PNStatus
  | UNASSIGNED
  | ALLOCATED
  | ASSIGNED
deriving DecidableEq

/-- Rendering of the status enum value, as used in error messages. -/
def PNStatus.value : PNStatus → String
  | .UNASSIGNED => "UNASSIGNED"
  | .ALLOCATED => "ALLOCATED"
  | .ASSIGNED => "ASSIGNED"

/-- Phone number record. UUIDs are embedded as natural-number identifiers;
the provider_metadata JSON column is not needed by any claim and is omitted. -/
structure PN where
  id : Nat
  number : String
  status : PNStatus
  tenant_id : Option Nat
  provider : Option String
deriving DecidableEq

/-- Assignment target type of a DIDAssignment. -/
inductive AssignmentType
  | USER
  | IVR
  | QUEUE
  | EXTERNAL
deriving DecidableEq

/-- Rendering of the assignment type enum value. -/
def AssignmentType.value : AssignmentType → String
  | .USER => "USER"
  | .IVR => "IVR"
  | .QUEUE => "QUEUE"
  | .EXTERNAL => "EXTERNAL"

/-- DIDAssignment record. -/
structure DIDAssignmentRec where
  phone_number_id : Nat
  assigned_type : AssignmentType
  assigned_id : Option Nat
  assigned_value : Option String
  created_by : Nat
deriving DecidableEq

/-- User record as needed by the DID service: identity and owning tenant. -/
structure UserRec where
  id : Nat
  tenant_id : Nat
deriving DecidableEq

/-- Database state visible to the DID service. -/
structure DidDb where
  phones : List PN
  users : List UserRec
  assignments : List DIDAssignmentRec
deriving DecidableEq

/-- Lookup of a phone number row by primary key. -/
def findPhone (l : List PN) (pid : Nat) : Option PN :=
  l.find? (fun p => p.id = pid)

/-- Lookup of a user row by primary key. -/
def findUser (l : List UserRec) (uid : Nat) : Option UserRec :=
  l.find? (fun u => u.id = uid)

/-- In-place update of the phone number row with the given id. -/
def updatePhone (l : List PN) (pid : Nat) (f : PN → PN) : List PN :=
  l.map (fun p => if p.id = pid then f p else p)

/-- Truthiness of an optional string in Python: None and the empty string are
falsy. -/
def strTruthy : Option String → Bool
  | none => false
  | some s => s ≠ ""

/-- Existence of a duplicate in a list of strings. -/
def listHasDup : List String → Bool
  | [] => false
  | x :: xs => xs.contains x || listHasDup xs

/-! ### DIDService.import_dids (src/services/did_service.py lines 39-142) -/

/-- Item of a DID import request. -/
structure DIDImportItem where
  number : String
  provider : Option String
deriving DecidableEq

/-- Per-number error entry of a DID import. -/
structure DIDImportError where
  number : String
  error : String
deriving DecidableEq

namespace DIDService

/-- New phone number rows created for a clean batch, one per input in order,
in status UNASSIGNED with no tenant; row ids are supplied by the database and
embedded as a base identifier plus the position in the batch. -/
def importRecords (dids : List DIDImportItem) (baseId : Nat) : List PN :=
  ((List.range dids.length).zip dids).map
    (fun p => { id := baseId + p.1, number := p.2.number, status := PNStatus.UNASSIGNED,
                tenant_id := none, provider := p.2.provider })

/-- Error list of an import batch: step 1 collects one entry per input
failing E.164 validation, then step 2 one entry per input whose number
already exists in the database, in batch order within each step. -/
def importErrors (db : List PN) (dids : List DIDImportItem) : List DIDImportError :=
  ((dids.filter (fun d => !validate_e164 d.number)).map
    (fun d => { number := d.number, error := "Invalid E.164 format" : DIDImportError })) ++
  ((dids.filter (fun d => (db.map (fun p => p.number)).contains d.number)).map
    (fun d => { number := d.number, error := "Duplicate number already exists" : DIDImportError }))

/-- Embedding of DIDService.import_dids. A nonempty error list returns count 0
with the errors and no change. Otherwise the rows are created and the commit
enforces the unique constraint on the number column: a violation rolls the
transaction back and surfaces as a RuntimeError, embedded as the error case. -/
def importDids (db : List PN) (dids : List DIDImportItem) (baseId : Nat) :
    List PN × Except String (Nat × List DIDImportError) :=
  let errors := importErrors db dids
  if errors.isEmpty then
    let db2 := db ++ importRecords dids baseId
    if listHasDup (db2.map (fun p => p.number)) then
      (db, Except.error "Database integrity error during DID import")
    else
      (db2, Except.ok (dids.length, []))
  else
    (db, Except.ok (0, errors))

/-- A batch member is offending when it fails E.164 validation or collides
with a number already present in the database. -/
def offendingB (db : List PN) (d : DIDImportItem) : Bool :=
  !validate_e164 d.number || (db.map (fun p => p.number)).contains d.number

/-! ### DIDService.deallocate (src/services/did_service.py lines 210-280) -/

/-- Embedding of DIDService.deallocate: only an ALLOCATED number may return to
UNASSIGNED; an ASSIGNED number is refused with an unassign-first error; any
other state is refused with an error naming the current and expected state. -/
def deallocate (db : DidDb) (pid : Nat) : DidDb × Except String PN :=
  match findPhone db.phones pid with
  | none => (db, Except.error ("Phone number not found: " ++ toString pid))
  | some pn =>
    if pn.status = PNStatus.ASSIGNED then
      (db, Except.error ("Cannot deallocate ASSIGNED phone number " ++ pn.number ++
        ". Unassign first."))
    else if pn.status ≠ PNStatus.ALLOCATED then
      (db, Except.error ("Phone number " ++ pn.number ++ " is " ++ pn.status.value ++
        ", expected ALLOCATED"))
    else
      let upd := fun p => { p with status := PNStatus.UNASSIGNED, tenant_id := none }
      ({ db with phones := updatePhone db.phones pid upd },
       Except.ok (upd pn))

/-! ### DIDService.assign_to_destination (src/services/did_service.py lines 282-410) -/

/-- Embedding of DIDService.assign_to_destination. Validation order follows
the source: row lookup, ALLOCATED status check, shape checks per target type,
then for a USER target the user lookup and the same-tenant check; afterwards
the assignment row is created and the status moves to ASSIGNED, with the
unique constraint on phone_number_id surfacing as an already-assigned error
that rolls the transaction back. -/
def assignToDestination (db : DidDb) (pid : Nat) (ty : AssignmentType)
    (aid : Option Nat) (aval : Option String) (actor : Nat) :
    DidDb × Except String DIDAssignmentRec :=
  match findPhone db.phones pid with
  | none => (db, Except.error ("Phone number not found: " ++ toString pid))
  | some pn =>
    if pn.status ≠ PNStatus.ALLOCATED then
      (db, Except.error ("Phone number " ++ pn.number ++ " is " ++ pn.status.value ++
        ", expected ALLOCATED"))
    else if ty = AssignmentType.USER ∨ ty = AssignmentType.IVR ∨ ty = AssignmentType.QUEUE then
      match aid with
      | none => (db, Except.error ("assigned_id is required for " ++ ty.value))
      | some uid =>
        if strTruthy aval then
          (db, Except.error ("assigned_value must be null for " ++ ty.value))
        else if ty = AssignmentType.USER then
          match findUser db.users uid with
          | none => (db, Except.error ("User not found: " ++ toString uid))
          | some u =>
            if pn.tenant_id ≠ some u.tenant_id then
              (db, Except.error ("User belongs to different tenant. Phone number tenant: " ++
                toString (repr pn.tenant_id) ++ ", User tenant: " ++ toString u.tenant_id))
            else
              assignCommit db pid ty aid aval actor pn
        else
          assignCommit db pid ty aid aval actor pn
    else if ty = AssignmentType.EXTERNAL then
      if !strTruthy aval then
        (db, Except.error "assigned_value is required for EXTERNAL")
      else
        match aid with
        | some _ => (db, Except.error "assigned_id must be null for EXTERNAL")
        | none => assignCommit db pid ty aid aval actor pn
    else
      (db, Except.error ("Invalid assignment type: " ++ ty.value))
where
  /-- Creation of the DIDAssignment row and the status move to ASSIGNED; the
  commit enforces at most one assignment per phone number. -/
  assignCommit (db : DidDb) (pid : Nat) (ty : AssignmentType) (aid : Option Nat)
      (aval : Option String) (actor : Nat) (pn : PN) :
      DidDb × Except String DIDAssignmentRec :=
    if db.assignments.any (fun a => a.phone_number_id = pid) then
      (db, Except.error ("Phone number " ++ pn.number ++ " is already assigned"))
    else
      let rec0 : DIDAssignmentRec :=
        { phone_number_id := pid, assigned_type := ty, assigned_id := aid,
          assigned_value := aval, created_by := actor }
      ({ db with
          phones := updatePhone db.phones pid (fun p => { p with status := PNStatus.ASSIGNED }),
          assignments := db.assignments ++ [rec0] },
       Except.ok rec0)

end DIDService

/-! ### Extension allocator (src/models/tenant.py lines 59-75) -/

/-- Tenant record with the extension-pool bounds and the allocation cursor.
Python integers are embedded as Int. -/
structure Tenant where
  name : String
  ext_min : Int
  ext_max : Int
  ext_next : Int
deriving DecidableEq

namespace Tenant

/-- Embedding of Tenant.has_available_extensions. -/
def has_available_extensions (t : Tenant) : Bool :=
  t.ext_next ≤ t.ext_max

/-- Embedding of Tenant.get_next_extension: raise on an exhausted pool,
otherwise return the cursor and advance it by one. -/
def get_next_extension (t : Tenant) : Except String (Int × Tenant) :=
  if !t.has_available_extensions then
    Except.error ("Extension pool exhausted for tenant " ++ t.name)
  else
    Except.ok (t.ext_next, { t with ext_next := t.ext_next + 1 })

end Tenant

/-- Iterated allocation: the results of n successive calls to
Tenant.get_next_extension, stopping at the first raised error. -/
def allocN (t : Tenant) : Nat → Except String (List Int × Tenant)
  | 0 => Except.ok ([], t)
  | n + 1 =>
    match t.get_next_extension with
    | Except.error e => Except.error e
    | Except.ok (x, t1) =>
      match allocN t1 n with
      | Except.error e => Except.error e
      | Except.ok (xs, t2) => Except.ok (x :: xs, t2)

/-! ### Configuration validator (src/services/apply_service.py lines 45-127) -/

/-- User record as seen by the validator: email, owning tenant and the
extension column. The extension is optional and Python truthiness treats the
integer zero like a missing extension. -/
structure VUser where
  email : String
  tenant_id : Nat
  extension : Option Int
deriving DecidableEq

/-- Tenant record as seen by the validator. -/
structure VTenant where
  id : Nat
  name : String
  ext_min : Int
  ext_max : Int
  ext_next : Int
deriving DecidableEq

/-- Result dictionary of the validator. -/
structure ValidationResult where
  valid : Bool
  errors : List String
  warnings : List String
deriving DecidableEq

/-- First-occurrence deduplication, matching iteration over a Python dict in
insertion order and over SQL groups in first-appearance order. -/
def firstDedup {α : Type} [DecidableEq α] : List α → List α
  | [] => []
  | a :: rest => a :: firstDedup (rest.filter (fun x => x ≠ a))
termination_by l => l.length
decreasing_by
  simpa using Nat.lt_succ_of_le (List.length_filter_le _ rest)

/-- Python truthiness of the optional extension column: None and 0 are falsy. -/
def extTruthy : Option Int → Bool
  | none => false
  | some e => e ≠ 0

namespace ApplyService

/-- Duplicate-email errors: one per distinct email carried by more than one
user, in first-appearance order. -/
def dupEmailErrors (users : List VUser) : List String :=
  (firstDedup (users.map (fun u => u.email))).filterMap (fun e =>
    let c := (users.filter (fun u => u.email = e)).length
    if c > 1 then some ("Duplicate email found: " ++ e ++ " (" ++ toString c ++ " users)")
    else none)

/-- Extension values of the users of one tenant, keeping only truthy ones, as
collected by the extension_counts dict of the source. -/
def tenantExtensions (users : List VUser) (t : VTenant) : List Int :=
  (users.filter (fun u => u.tenant_id = t.id)).filterMap (fun u =>
    match u.extension with
    | some e => if e ≠ 0 then some e else none
    | none => none)

/-- Errors contributed by one tenant: duplicate extensions, users without an
extension, and an invalid range. The allocation cursor contributes no error. -/
def tenantErrors (users : List VUser) (t : VTenant) : List String :=
  let tUsers := users.filter (fun u => u.tenant_id = t.id)
  let exts := tenantExtensions users t
  ((firstDedup exts).filterMap (fun e =>
    let c := (exts.filter (fun x => x = e)).length
    if c > 1 then
      some ("Duplicate extension " ++ toString e ++ " in tenant " ++ t.name ++
        " (" ++ toString c ++ " users)")
    else none)) ++
  ((tUsers.filter (fun u => !extTruthy u.extension)).map (fun u =>
    "User " ++ u.email ++ " has no extension assigned")) ++
  (if t.ext_min ≥ t.ext_max then
    ["Invalid extension range for tenant " ++ t.name ++ ": " ++
      toString t.ext_min ++ "-" ++ toString t.ext_max]
  else [])

/-- Warning contributed by one tenant when the cursor ran past the range. -/
def tenantWarnings (t : VTenant) : List String :=
  if t.ext_next > t.ext_max + 1 then
    ["Tenant " ++ t.name ++ " ext_next (" ++ toString t.ext_next ++
      ") exceeds range (" ++ toString t.ext_min ++ "-" ++ toString t.ext_max ++ ")"]
  else []

/-- Errors appended across the tenant loop, in tenant order. -/
def collectErrors (users : List VUser) : List VTenant → List String
  | [] => []
  | t :: ts => tenantErrors users t ++ collectErrors users ts

/-- Warnings appended across the tenant loop, in tenant order. -/
def collectWarnings : List VTenant → List String
  | [] => []
  | t :: ts => tenantWarnings t ++ collectWarnings ts

/-- Embedding of ApplyService.validate_configuration: duplicate emails first,
then the per-tenant checks in tenant order; valid is emptiness of the error
list; cursor overrun is a warning only. -/
def validate_configuration (users : List VUser) (tenants : List VTenant) :
    ValidationResult :=
  let errors := dupEmailErrors users ++ collectErrors users tenants
  let warnings := collectWarnings tenants
  { valid := errors.isEmpty, errors := errors, warnings := warnings }

end ApplyService

/-! ### ApplyJob record (src/models/apply_audit_log.py) -/

/-- Apply operation status enum. In the source, FAILED documents an apply that
failed without rollback and ROLLED_BACK one whose rollback executed. -/
inductive ApplyStatus
  | PENDING
  | RUNNING
  | SUCCESS
  | FAILED
  | ROLLED_BACK
deriving DecidableEq

/-- ApplyJob row: status, error text and diff summary. Timestamps and foreign
keys are not needed by any claim. -/
structure ApplyJob where
  status : ApplyStatus
  error_text : Option String
  diff_summary : Option String
deriving DecidableEq

namespace ApplyJob

/-- Embedding of ApplyJob.start. -/
def start (j : ApplyJob) : ApplyJob :=
  { j with status := ApplyStatus.RUNNING }

/-- Embedding of ApplyJob.succeed. -/
def succeed (j : ApplyJob) (diff : String) : ApplyJob :=
  { j with status := ApplyStatus.SUCCESS, diff_summary := some diff }

/-- Embedding of ApplyJob.fail, the terminal mark without rollback. -/
def fail (j : ApplyJob) (e : String) : ApplyJob :=
  { j with status := ApplyStatus.FAILED, error_text := some e }

/-- Embedding of ApplyJob.rollback, the terminal mark for an executed
rollback. No service of the repository ever calls it. -/
def rollback (j : ApplyJob) (e : String) : ApplyJob :=
  { j with status := ApplyStatus.ROLLED_BACK, error_text := some e }

end ApplyJob

/-! ### Safe apply orchestrator (src/services/apply_service_enhanced.py) -/

/-- Environment oracle for one run of apply_configuration_safe. A some value
in an exception slot means that the corresponding intermediate step raised
with that message; the validation result, the backup outcome, the reload
verdict and the loaded diff summary are produced by the environment. -/
structure EnhOracle where
  lockAvailable : Bool
  validateExc : Option String
  validation : ValidationResult
  loadExc : Option String
  backupSucceeds : Bool
  generateExc : Option String
  writeExc : Option String
  reloadSucceeds : Bool
  loadedSummary : String
deriving DecidableEq

/-- World state touched by the orchestrator: whether this process holds the
cluster advisory lock, and the content published at the dialplan path. -/
structure EnhWorld where
  lockHeld : Bool
  published : Option String
deriving DecidableEq

/-- Outcome of one run: final world, final job row, and the exception message
propagated to the caller when the run raised. -/
structure EnhResult where
  world : EnhWorld
  job : ApplyJob
  raised : Option String
deriving DecidableEq

namespace EnhancedApplyService

/-- Embedding of the except-branch of apply_configuration_safe: restore the
published file from the backup when one was taken, mark the job FAILED unless
it already is, and re-raise. The backup value carries the file content that
the backup directory holds (the file may have been absent). -/
def exceptBranch (m : String) (backupRes : Option (Option String))
    (w : EnhWorld) (j : ApplyJob) : EnhResult :=
  let w := match backupRes with
    | some snap => { w with published := snap }
    | none => w
  let j := if j.status ≠ ApplyStatus.FAILED then j.fail m else j
  { world := w, job := j, raised := some m }

/-- Embedding of the finally-branch: release the advisory lock whenever it was
acquired, on every path. -/
def finallyBranch (lockAcquired : Bool) (r : EnhResult) : EnhResult :=
  if lockAcquired then { r with world := { r.world with lockHeld := false } } else r

/-- Embedding of EnhancedApplyService.apply_configuration_safe. The job row is
created PENDING; the advisory lock is tried; on conflict the job is marked
FAILED and a RuntimeError is raised; then validation, data load, backup,
generation, atomic write, and the Asterisk reload run in order, each failure
routed through the except-branch; a reload failure restores the backup, marks
the job FAILED and raises; the finally-branch always releases the lock. -/
def apply_configuration_safe (o : EnhOracle) (force : Bool) (newCfg : String)
    (w : EnhWorld) : EnhResult :=
  let job : ApplyJob := { status := ApplyStatus.PENDING, error_text := none,
                          diff_summary := none }
  if !o.lockAvailable then
    let job := job.fail "Another apply operation is in progress"
    finallyBranch false (exceptBranch "Another apply operation is in progress" none w job)
  else
    let w := { w with lockHeld := true }
    let job := job.start
    match o.validateExc with
    | some m => finallyBranch true (exceptBranch m none w job)
    | none =>
      if !o.validation.valid && !force then
        let msg := "Configuration validation failed: " ++
          String.intercalate ", " o.validation.errors
        let job := job.fail msg
        finallyBranch true (exceptBranch msg none w job)
      else
        match o.loadExc with
        | some m => finallyBranch true (exceptBranch m none w job)
        | none =>
          let backupRes : Option (Option String) :=
            if o.backupSucceeds then some w.published else none
          match o.generateExc with
          | some m => finallyBranch true (exceptBranch m backupRes w job)
          | none =>
            match o.writeExc with
            | some m => finallyBranch true (exceptBranch m backupRes w job)
            | none =>
              let w := { w with published := some newCfg }
              if !o.reloadSucceeds then
                let w := match backupRes with
                  | some snap => { w with published := snap }
                  | none => w
                let job := job.fail "Asterisk reload failed"
                finallyBranch true (exceptBranch "Asterisk reload failed" backupRes w job)
              else
                let job := job.succeed o.loadedSummary
                finallyBranch true { world := w, job := job, raised := none }

end EnhancedApplyService

/-! ### Legacy apply (src/services/apply_service.py lines 197-411) -/

/-- Environment oracle for one run of the legacy ApplyService.apply_configuration. -/
structure OldOracle where
  lockAvailable : Bool
  readExc : Option String
  syncExc : Option String
  generateExc : Option String
  writeExc : Option String
  reloadExc : Option String
  pjsipReloadOk : Bool
  dialplanReloadOk : Bool
  auditExc : Option String
deriving DecidableEq

/-- Outcome of one legacy run: whether this process still holds the advisory
lock at return, and the exception propagated when the run raised. -/
structure OldResult where
  lockHeld : Bool
  raised : Option String
deriving DecidableEq

namespace ApplyService

/-- Joint embedding of the except-branch (failure audit logging, which does
not touch the lock) and the finally-branch (release of the advisory lock when
still held) of apply_configuration. -/
def oldFinish (lockAcquired : Bool) (lockHeld : Bool) (raised : Option String) :
    OldResult :=
  { lockHeld := if lockAcquired then false else lockHeld, raised := raised }

/-- Embedding of ApplyService.apply_configuration, tracking the advisory lock
through every control-flow path: lock conflict, exceptions raised by the read,
sync, generation, write, reload and audit steps, the in-line release of the
success path, and the RuntimeError raised after a reported reload failure. -/
def apply_configuration (o : OldOracle) : OldResult :=
  if !o.lockAvailable then
    oldFinish false false (some "Another apply operation is currently in progress")
  else
    match o.readExc with
    | some m => oldFinish true true (some m)
    | none =>
      match o.syncExc with
      | some m => oldFinish true true (some m)
      | none =>
        match o.generateExc with
        | some m => oldFinish true true (some m)
        | none =>
          match o.writeExc with
          | some m => oldFinish true true (some m)
          | none =>
            match o.reloadExc with
            | some m => oldFinish true true (some m)
            | none =>
              let reloadSuccess := o.pjsipReloadOk && o.dialplanReloadOk
              match o.auditExc with
              | some m => oldFinish true true (some m)
              | none =>
                -- Step 7 of the source releases the lock in the success path
                -- and clears the acquired flag before the reload verdict is
                -- turned into a raised RuntimeError.
                if !reloadSuccess then
                  oldFinish false false (some "Apply operation completed but Asterisk reload failed")
                else
                  oldFinish false false none

end ApplyService

/-! ### Atomic file publisher (src/config_generator/atomic_writer.py) -/

/-- Filesystem state: content of the file at each path, none when absent. -/
def FS : Type := String → Option String

/-- Pointwise update of the filesystem at one path. -/
def FS.set (fs : FS) (p : String) (v : Option String) : FS :=
  fun q => if q = p then v else fs q

/-- Typed errors of the atomic writer, mirroring the exception classes that
write_atomic raises: ValueError for a relative path, PermissionError re-raised
as such, and every other failure re-raised as IOError. -/
inductive PyErr
  | valueError (msg : String)
  | permissionError (msg : String)
  | ioError (msg : String)
deriving DecidableEq

/-- Exception class raised by a failing filesystem step. -/
inductive StepExc
  | permE
  | osE
  | otherE
deriving DecidableEq

/-- Fault oracle for one run of write_atomic: each slot records whether the
corresponding filesystem operation raised and with which exception class. -/
structure WriterOracle where
  mkdirExc : Option StepExc
  createExc : Option StepExc
  writeExc : Option StepExc
  replaceExc : Option StepExc
deriving DecidableEq

/-- Embedding of os.path.isabs on POSIX: the path starts with a slash. -/
def isAbs (p : String) : Bool :=
  p.startsWith "/"

namespace AtomicFileWriter

/-- Mapping of a step exception class to the error that the corresponding
except-clause of write_atomic re-raises. -/
def reraise (e : StepExc) (target : String) : PyErr :=
  match e with
  | StepExc.permE => PyErr.permissionError ("Insufficient permissions to write to " ++ target)
  | StepExc.osE => PyErr.ioError ("Failed to write to " ++ target)
  | StepExc.otherE => PyErr.ioError ("Unexpected error writing to " ++ target)

/-- Embedding of AtomicFileWriter.write_atomic. A relative target raises
ValueError before any filesystem effect. Then the parent directory is
ensured, a fresh temporary file is created in the same directory (tmpPath is
the fresh name chosen by tempfile, distinct from every existing path), the
content is written and forced to disk, and os.replace atomically moves the
temporary file onto the target. Each except-clause removes the temporary file
when the local tmp_path exists and re-raises the typed error. -/
def write_atomic (o : WriterOracle) (content : String) (targetPath : String)
    (tmpPath : String) (fs : FS) : FS × Option PyErr :=
  if !isAbs targetPath then
    (fs, some (PyErr.valueError ("Target path must be absolute: " ++ targetPath)))
  else
    match o.mkdirExc with
    | some e => (fs, some (reraise e targetPath))
    | none =>
      match o.createExc with
      | some e => (fs, some (reraise e targetPath))
      | none =>
        let fs1 := fs.set tmpPath (some "")
        match o.writeExc with
        | some e => (fs1.set tmpPath none, some (reraise e targetPath))
        | none =>
          let fs2 := fs1.set tmpPath (some content)
          match o.replaceExc with
          | some e => (fs2.set tmpPath none, some (reraise e targetPath))
          | none =>
            ((fs2.set tmpPath none).set targetPath (some content), none)

end AtomicFileWriter

/-! ### Outbound policy generator (src/config_generator/outbound_policy.py) -/

/-- Policy dictionary shape documented by OutboundPolicyGenerator.generate. -/
structure PolicyD where
  id : String
  name : String
  allow_international : Bool
  allow_premium : Bool
  allow_emergency : Bool
  trunk_id : String
deriving DecidableEq

/-- User dictionary as passed to the outbound generator for caller-id setup. -/
structure UserD where
  id : String
  extension : Int
deriving DecidableEq

/-- The config_lines list built by OutboundPolicyGenerator.generate, in
append order. Literal braces of the dialplan variable references are written
as escapes. -/
def outboundPolicyLines : List String :=
  [ "; ========================================"
  , "; Outbound Calling Policy Enforcement"
  , "; ========================================"
  , ""
  , "[outbound]"
  , "; Outbound calls with policy enforcement"
  , ""
  , "exten => _911,1,NoOp(Emergency call - 911)"
  , "same => n,Set(CALLERID(num)=$\x7bCALLERID(num)\x7d)"
  , "same => n,Dial(PJSIP/$\x7bEXTEN\x7d@emergency-trunk,30)"
  , "same => n,Hangup()"
  , ""
  , "exten => _1NXXNXXXXXX,1,NoOp(Long distance call to $\x7bEXTEN\x7d)"
  , "same => n,GotoIf($[$\x7bDB(POLICY/$\x7bCALLERID(num)\x7d/LD)\x7d = 1]?allow)"
  , "same => n,Playback(ss-noservice)"
  , "same => n,Hangup()"
  , "same => n(allow),Dial(PJSIP/$\x7bEXTEN\x7d@trunk,30)"
  , "same => n,Hangup()"
  , ""
  , "exten => _NXXNXXXXXX,1,NoOp(Local call to $\x7bEXTEN\x7d)"
  , "same => n,Dial(PJSIP/1$\x7bEXTEN\x7d@trunk,30)"
  , "same => n,Hangup()"
  , ""
  , "exten => _011.,1,NoOp(International call to $\x7bEXTEN\x7d)"
  , "same => n,GotoIf($[$\x7bDB(POLICY/$\x7bCALLERID(num)\x7d/INTL)\x7d = 1]?allow)"
  , "same => n,Playback(ss-noservice)"
  , "same => n,Hangup()"
  , "same => n(allow),Dial(PJSIP/$\x7bEXTEN\x7d@trunk,30)"
  , "same => n,Hangup()"
  , ""
  , "exten => _1800NXXXXXX,1,NoOp(Toll-free call to $\x7bEXTEN\x7d)"
  , "same => n,Dial(PJSIP/$\x7bEXTEN\x7d@trunk,30)"
  , "same => n,Hangup()"
  , "exten => _1888NXXXXXX,1,Goto(1800NXXXXXX,1)"
  , "exten => _1877NXXXXXX,1,Goto(1800NXXXXXX,1)"
  , "exten => _1866NXXXXXX,1,Goto(1800NXXXXXX,1)"
  , ""
  , "exten => _1900NXXXXXX,1,NoOp(Premium rate call blocked)"
  , "same => n,Playback(ss-noservice)"
  , "same => n,Hangup()"
  , ""
  , "exten => _X.,1,NoOp(Unknown pattern: $\x7bEXTEN\x7d)"
  , "same => n,Playback(ss-noservice)"
  , "same => n,Hangup()"
  , ""
  ]

namespace OutboundPolicyGenerator

/-- Embedding of OutboundPolicyGenerator.generate: the arguments are accepted
and ignored by the source, which joins the fixed config_lines with newlines. -/
def generate (policies : List PolicyD) (users : List UserD) : String :=
  let _ := policies
  let _ := users
  String.intercalate "\n" outboundPolicyLines

end OutboundPolicyGenerator

/-- Prefix test on strings through their character lists. -/
def strStartsWith (pre s : String) : Bool :=
  pre.data.isPrefixOf s.data

/-- Occurrence of a character pattern anywhere in a character list. -/
def listHasSub (pat : List Char) : List Char → Bool
  | [] => pat.isEmpty
  | c :: rest => pat.isPrefixOf (c :: rest) || listHasSub pat rest

/-- Occurrence of a substring anywhere in a string. -/
def strHasSub (pat s : String) : Bool :=
  listHasSub pat.data s.data

/-- Index of the first rule line of the given dialplan pattern. -/
def extenLineIdx (pat : String) : Option Nat :=
  outboundPolicyLines.findIdx? (fun l => strStartsWith ("exten => " ++ pat) l)

/-- Absence of any further exten rule line after the given index. -/
def noExtenAfter (j : Nat) : Bool :=
  ((outboundPolicyLines.drop (j + 1)).filter (fun l => strStartsWith "exten =>" l)).isEmpty

/-- The rule block that a given exten line opens: the following lines up to
the next blank line or exten line. -/
def blockAfter (i : Nat) : List String :=
  (outboundPolicyLines.drop (i + 1)).takeWhile
    (fun l => l ≠ "" && !strStartsWith "exten =>" l)

/-- Cleanliness of the emergency block: it contains a Dial action, and no
line before that Dial performs a GotoIf policy check. -/
def emergencyBlockClean : Bool :=
  match extenLineIdx "_911" with
  | none => false
  | some i =>
    let blk := blockAfter i
    blk.any (fun l => strHasSub "Dial(" l) &&
    (blk.takeWhile (fun l => !strHasSub "Dial(" l)).all (fun l => !strHasSub "GotoIf" l)

/-! ### Spec-side predicate and concrete sample inputs used by witnesses -/

/-- Characterization of the amended E.164 claim: the input, possibly after
removal of one trailing newline, is a plus sign followed by a first digit
from 1 to 9 and then 1 to 14 further digits. -/
def E164Amended (s : String) : Prop :=
  ∃ d ds, pyDollarStrip s.data = '+' :: d :: ds ∧ '1' ≤ d ∧ d ≤ '9' ∧
    (∀ c ∈ ds, c.isDigit = true) ∧ 1 ≤ ds.length ∧ ds.length ≤ 14

/-- Sample tenant with the two-extension pool of the end-to-end scenario. -/
def sampleTenant : Tenant :=
  { name := "acme", ext_min := 1000, ext_max := 1001, ext_next := 1000 }

/-- Sample phone number row, allocated to tenant 1. -/
def samplePn : PN :=
  { id := 1, number := "+15551234567", status := PNStatus.ALLOCATED,
    tenant_id := some 1, provider := none }

/-- Sample DID database: one allocated number of tenant 1 and one user of
tenant 2. -/
def sampleDidDb : DidDb :=
  { phones := [samplePn], users := [{ id := 7, tenant_id := 2 }], assignments := [] }

/-- Sample phone number table for the import witness. -/
def sampleImportDb : List PN :=
  [{ id := 1, number := "+15550001111", status := PNStatus.UNASSIGNED,
     tenant_id := none, provider := none }]

/-- Sample import batch whose second member fails E.164 validation. -/
def sampleBatch : List DIDImportItem :=
  [{ number := "+15551234567", provider := none },
   { number := "5551234567", provider := none }]

/-- Sample all-success oracle for the safe apply orchestrator. -/
def sampleEnhOracle : EnhOracle :=
  { lockAvailable := true, validateExc := none,
    validation := { valid := true, errors := [], warnings := [] },
    loadExc := none, backupSucceeds := true, generateExc := none,
    writeExc := none, reloadSucceeds := true,
    loadedSummary := "Applied 1 users across 1 tenant(s)" }

/-- Oracle for a run in which every step succeeds until the Asterisk reload
reports failure. -/
def sampleReloadFailOracle : EnhOracle :=
  { sampleEnhOracle with reloadSucceeds := false }

/-- Sample initial world: lock free, an old dialplan published. -/
def sampleWorld : EnhWorld :=
  { lockHeld := false, published := some "; old dialplan" }

/-- Sample all-success oracle for the legacy apply. -/
def sampleOldOracle : OldOracle :=
  { lockAvailable := true, readExc := none, syncExc := none, generateExc := none,
    writeExc := none, reloadExc := none, pjsipReloadOk := true,
    dialplanReloadOk := true, auditExc := none }

/-- Sample fault-free writer oracle. -/
def sampleWriterOracle : WriterOracle :=
  { mkdirExc := none, createExc := none, writeExc := none, replaceExc := none }

/-- Sample filesystem holding only the published dialplan. -/
def sampleFs : FS :=
  fun p => if p = "/etc/asterisk/extensions_custom.conf" then some "; old dialplan" else none

/-- Sample target path of the atomic writer. -/
def sampleTarget : String := "/etc/asterisk/extensions_custom.conf"

/-- Sample fresh temporary path chosen by tempfile in the target directory. -/
def sampleTmp : String := "/etc/asterisk/.extensions_custom.conf.k3j2.tmp"

/-- Sample tenant list for the validator witness: the cursor ran past the
range end. -/
def sampleVTenants : List VTenant :=
  [{ id := 1, name := "acme", ext_min := 1000, ext_max := 1010, ext_next := 1020 }]

/-! ## Theorems -/

/-- Characterization of the E.164 matcher on character lists. -/
theorem e164Match_iff (l : List Char) :
    e164Match l = true ↔ ∃ d ds, l = '+' :: d :: ds ∧ '1' ≤ d ∧ d ≤ '9' ∧
      (∀ c ∈ ds, c.isDigit = true) ∧ 1 ≤ ds.length ∧ ds.length ≤ 14 := by
  cases l with
  | nil => simp [e164Match]
  | cons c t =>
    cases t with
    | nil => simp [e164Match]
    | cons d ds =>
      simp only [e164Match, Bool.and_eq_true, decide_eq_true_eq, List.all_eq_true]
      constructor
      · rintro ⟨⟨⟨⟨⟨hplus, h1⟩, h9⟩, hdig⟩, hlen1⟩, hlen2⟩
        exact ⟨d, ds, by rw [hplus], h1, h9, hdig, hlen1, hlen2⟩
      · rintro ⟨d2, ds2, heq, h1, h9, hdig, hlen1, hlen2⟩
        injection heq with hc ht
        injection ht with hd hds
        subst hc; subst hd; subst hds
        exact ⟨⟨⟨⟨⟨rfl, h1⟩, h9⟩, hdig⟩, hlen1⟩, hlen2⟩

/-- Claim C9, counterexample: the code rejects the string plus-zero-one even
though it is a plus sign followed by 2 digits, which the spec calls valid
E.164 text. -/
theorem validate_e164_rejects_leading_zero :
    DIDService.validate_e164 "+01" = false ∧ specE164 "+01" = true := by
  constructor <;> decide

/-- Claim C9 (amended): for ASCII inputs, validate_e164 returns true exactly
when the input, possibly after removal of one trailing newline, is a plus
sign followed by a first digit from 1 to 9 and then 1 to 14 further digits. -/
theorem validate_e164_characterization (s : String)
    (hascii : ∀ c ∈ s.data, c.toNat < 128) :
    DIDService.validate_e164 s = true ↔ E164Amended s := by
  have _ := hascii
  unfold DIDService.validate_e164 E164Amended
  exact e164Match_iff (pyDollarStrip s.data)

/-- Witness for the amended claim C9 at a concrete valid number. -/
theorem validate_e164_characterization_witness :
    (∀ c ∈ ("+15551234567" : String).data, c.toNat < 128) ∧
      (DIDService.validate_e164 "+15551234567" = true ↔ E164Amended "+15551234567") :=
  ⟨by decide, validate_e164_characterization "+15551234567" (by decide)⟩

/-- Claim C8: for every input, the generated outbound policy text is the
fixed line list joined by newlines, in which the emergency rule block comes
before the catch-all deny block, no exten rule follows the catch-all line,
and the emergency block reaches its Dial action without any GotoIf policy
check. -/
theorem outbound_policy_ordering (policies : List PolicyD) (users : List UserD) :
    OutboundPolicyGenerator.generate policies users =
      String.intercalate "\n" outboundPolicyLines ∧
    ∃ i j, extenLineIdx "_911" = some i ∧ extenLineIdx "_X." = some j ∧ i < j ∧
      noExtenAfter j = true ∧ emergencyBlockClean = true := by
  refine ⟨rfl, 7, 41, ?_, ?_, ?_, ?_, ?_⟩
  · decide
  · decide
  · decide
  · decide
  · decide

/-- Claim C6: deallocate succeeds only from ALLOCATED, where it sets the
number UNASSIGNED and clears the tenant; from ASSIGNED it raises the
unassign-first precondition error; from UNASSIGNED it raises an error naming
the current and the expected state; every failing case returns the database
unchanged. -/
theorem deallocate_state_machine (db : DidDb) (pid : Nat) (pn : PN)
    (hfind : findPhone db.phones pid = some pn) :
    (pn.status = PNStatus.ALLOCATED →
      DIDService.deallocate db pid =
        ({ db with phones := updatePhone db.phones pid (fun p => { p with status := PNStatus.UNASSIGNED, tenant_id := none }) },
         Except.ok { pn with status := PNStatus.UNASSIGNED, tenant_id := none })) ∧
    (pn.status = PNStatus.ASSIGNED →
      DIDService.deallocate db pid =
        (db, Except.error ("Cannot deallocate ASSIGNED phone number " ++ pn.number ++
          ". Unassign first."))) ∧
    (pn.status = PNStatus.UNASSIGNED →
      DIDService.deallocate db pid =
        (db, Except.error ("Phone number " ++ pn.number ++ " is " ++ "UNASSIGNED" ++
          ", expected ALLOCATED"))) := by
  refine ⟨?_, ?_, ?_⟩ <;> intro h <;>
    simp [DIDService.deallocate, hfind, h, PNStatus.value]

/-- Witness for claim C6: deallocating the sample allocated number succeeds
and clears its tenant. -/
theorem deallocate_state_machine_witness :
    findPhone sampleDidDb.phones 1 = some samplePn ∧
    samplePn.status = PNStatus.ALLOCATED ∧
    DIDService.deallocate sampleDidDb 1 =
      ({ sampleDidDb with phones := updatePhone sampleDidDb.phones 1 (fun p => { p with status := PNStatus.UNASSIGNED, tenant_id := none }) },
       Except.ok { samplePn with status := PNStatus.UNASSIGNED, tenant_id := none }) :=
  ⟨by decide, by decide, (deallocate_state_machine sampleDidDb 1 samplePn (by decide)).1 rfl⟩

/-- Claim C5: a USER-typed assignment whose target user belongs to a tenant
other than the tenant of the ALLOCATED phone number fails with a validation
error and returns the database unchanged, so no assignment row is created and
the number stays ALLOCATED. -/
theorem cross_tenant_assignment_rejected (db : DidDb) (pid uid actor : Nat)
    (aval : Option String) (pn : PN) (u : UserRec)
    (hfind : findPhone db.phones pid = some pn)
    (hstatus : pn.status = PNStatus.ALLOCATED)
    (huser : findUser db.users uid = some u)
    (htenant : pn.tenant_id ≠ some u.tenant_id) :
    ∃ m, DIDService.assignToDestination db pid AssignmentType.USER (some uid) aval actor
        = (db, Except.error m) := by
  by_cases hv : strTruthy aval = true
  · have h : DIDService.assignToDestination db pid AssignmentType.USER (some uid) aval actor
        = (db, Except.error ("assigned_value must be null for " ++ AssignmentType.USER.value)) := by
      unfold DIDService.assignToDestination
      rw [hfind]
      simp [hstatus, hv]
    exact ⟨_, h⟩
  · have h : DIDService.assignToDestination db pid AssignmentType.USER (some uid) aval actor
        = (db, Except.error ("User belongs to different tenant. Phone number tenant: " ++
            toString (repr pn.tenant_id) ++ ", User tenant: " ++ toString u.tenant_id)) := by
      unfold DIDService.assignToDestination
      rw [hfind]
      simp [hstatus, hv, huser, htenant]
    exact ⟨_, h⟩

/-- Witness for claim C5: assigning the sample number of tenant 1 to the
sample user of tenant 2 is rejected and changes nothing. -/
theorem cross_tenant_assignment_rejected_witness :
    findPhone sampleDidDb.phones 1 = some samplePn ∧
    samplePn.status = PNStatus.ALLOCATED ∧
    findUser sampleDidDb.users 7 = some { id := 7, tenant_id := 2 } ∧
    samplePn.tenant_id ≠ some (2 : Nat) ∧
    ∃ m, DIDService.assignToDestination sampleDidDb 1 AssignmentType.USER (some 7) none 0
        = (sampleDidDb, Except.error m) :=
  ⟨by decide, by decide, by decide, by decide,
   cross_tenant_assignment_rejected sampleDidDb 1 7 0 none samplePn
     { id := 7, tenant_id := 2 } (by decide) (by decide) (by decide) (by decide)⟩

/-- Reduction of get_next_extension on a non-exhausted pool. -/
theorem get_next_extension_ok (t : Tenant) (h : t.ext_next ≤ t.ext_max) :
    t.get_next_extension = Except.ok (t.ext_next, { t with ext_next := t.ext_next + 1 }) := by
  simp [Tenant.get_next_extension, Tenant.has_available_extensions, h]

/-- Reduction of get_next_extension on an exhausted pool. -/
theorem get_next_extension_err (t : Tenant) (h : ¬ t.ext_next ≤ t.ext_max) :
    t.get_next_extension = Except.error ("Extension pool exhausted for tenant " ++ t.name) := by
  simp [Tenant.get_next_extension, Tenant.has_available_extensions, h]

/-- One-step unfolding of a nonempty allocation run. -/
theorem allocN_succ_eq (t : Tenant) (n : Nat) :
    allocN t (n + 1) =
      match t.get_next_extension with
      | Except.error e => Except.error e
      | Except.ok (x, t1) =>
        match allocN t1 n with
        | Except.error e => Except.error e
        | Except.ok (xs, t2) => Except.ok (x :: xs, t2) := rfl

/-- Reduction of a nonempty run on a non-exhausted pool. -/
theorem allocN_succ_avail (t : Tenant) (n : Nat) (havail : t.ext_next ≤ t.ext_max) :
    allocN t (n + 1) =
      match allocN { t with ext_next := t.ext_next + 1 } n with
      | Except.error e => Except.error e
      | Except.ok (xs, t2) => Except.ok (t.ext_next :: xs, t2) := by
  rw [allocN_succ_eq, get_next_extension_ok t havail]

/-- Characterization of a successful allocation run: the cursor advances by
the number of calls, the other fields are untouched, and the returned numbers
are a strictly increasing list inside the pool. -/
theorem allocN_ok_spec : ∀ (N : Nat) (t : Tenant) (xs : List Int) (t2 : Tenant),
    allocN t N = Except.ok (xs, t2) →
    xs.length = N ∧ t2.name = t.name ∧ t2.ext_min = t.ext_min ∧ t2.ext_max = t.ext_max ∧
    t2.ext_next = t.ext_next + N ∧
    (∀ x ∈ xs, t.ext_next ≤ x ∧ x ≤ t.ext_max) ∧ xs.Pairwise (· < ·) := by
  intro N
  induction N with
  | zero =>
    intro t xs t2 h
    simp only [allocN] at h
    injection h with h
    injection h with hxs ht2
    subst hxs; subst ht2
    exact ⟨rfl, rfl, rfl, rfl, by simp, by simp, by simp⟩
  | succ n ih =>
    intro t xs t2 h
    by_cases havail : t.ext_next ≤ t.ext_max
    · rw [allocN_succ_avail t n havail] at h
      cases hrec : allocN { t with ext_next := t.ext_next + 1 } n with
      | error e => rw [hrec] at h; exact absurd h (by simp)
      | ok p =>
        obtain ⟨xs1, t21⟩ := p
        rw [hrec] at h
        injection h with h
        injection h with hxs ht2
        subst hxs; subst ht2
        obtain ⟨hlen, hname, hmin, hmax, hext, hbounds, hpair⟩ := ih _ xs1 t21 hrec
        have hname2 : t21.name = t.name := hname
        have hmin2 : t21.ext_min = t.ext_min := hmin
        have hmax2 : t21.ext_max = t.ext_max := hmax
        have hext2 : t21.ext_next = t.ext_next + 1 + (n : Int) := hext
        have hbounds2 : ∀ x ∈ xs1, t.ext_next + 1 ≤ x ∧ x ≤ t.ext_max := hbounds
        refine ⟨by simp [hlen], hname2, hmin2, hmax2, ?_, ?_, ?_⟩
        · rw [hext2]; push_cast; ring
        · intro x hx
          rcases List.mem_cons.mp hx with hx | hx
          · subst hx; exact ⟨le_refl _, havail⟩
          · obtain ⟨h1, h2⟩ := hbounds2 x hx
            exact ⟨by omega, h2⟩
        · refine List.pairwise_cons.mpr ⟨?_, hpair⟩
          intro y hy
          obtain ⟨h1, _⟩ := hbounds2 y hy
          omega
    · rw [allocN_succ_eq, get_next_extension_err t havail] at h
      exact absurd h (by simp)

/-- A run that fits in the pool succeeds. -/
theorem allocN_ok_of_le : ∀ (N : Nat) (t : Tenant), t.ext_next + N ≤ t.ext_max + 1 →
    ∃ xs t2, allocN t N = Except.ok (xs, t2) := by
  intro N
  induction N with
  | zero => intro t _; exact ⟨[], t, by simp [allocN]⟩
  | succ n ih =>
    intro t h
    have havail : t.ext_next ≤ t.ext_max := by push_cast at h; omega
    have hb : ({ t with ext_next := t.ext_next + 1 } : Tenant).ext_next + n ≤
        ({ t with ext_next := t.ext_next + 1 } : Tenant).ext_max + 1 := by
      push_cast at h ⊢; omega
    obtain ⟨xs, t2, hrec⟩ := ih _ hb
    refine ⟨t.ext_next :: xs, t2, ?_⟩
    rw [allocN_succ_avail t n havail, hrec]

/-- A run that exceeds the pool by at least one call fails with the
pool-exhausted error of the tenant. -/
theorem allocN_exhausted : ∀ (N : Nat) (t : Tenant),
    t.ext_max + 1 < t.ext_next + (N + 1) →
    allocN t (N + 1) = Except.error ("Extension pool exhausted for tenant " ++ t.name) := by
  intro N
  induction N with
  | zero =>
    intro t h
    have hx : ¬ t.ext_next ≤ t.ext_max := by push_cast at h; omega
    rw [allocN_succ_eq, get_next_extension_err t hx]
  | succ n ih =>
    intro t h
    by_cases havail : t.ext_next ≤ t.ext_max
    · have hb : ({ t with ext_next := t.ext_next + 1 } : Tenant).ext_max + 1 <
          ({ t with ext_next := t.ext_next + 1 } : Tenant).ext_next + (n + 1) := by
        push_cast at h ⊢; omega
      rw [allocN_succ_avail t (n + 1) havail, ih _ hb]
    · rw [allocN_succ_eq, get_next_extension_err t havail]

/-- Claim C3: starting from a fresh cursor, N successful allocations advance
the cursor to ext_min plus N and return N pairwise distinct numbers inside
the pool; and over a nonempty pool, a run of pool-size calls succeeds while
the run with one further call raises the pool-exhausted error. -/
theorem extension_allocation_correct (t : Tenant) (N : Nat) (xs : List Int) (t2 : Tenant)
    (hinit : t.ext_next = t.ext_min) :
    (allocN t N = Except.ok (xs, t2) →
      t2.ext_next = t.ext_min + N ∧ xs.Nodup ∧ xs.length = N ∧
      (∀ x ∈ xs, t.ext_min ≤ x ∧ x ≤ t.ext_max)) ∧
    (t.ext_min ≤ t.ext_max →
      (∃ ys u, allocN t ((t.ext_max - t.ext_min + 1).toNat) = Except.ok (ys, u)) ∧
      allocN t ((t.ext_max - t.ext_min + 1).toNat + 1) =
        Except.error ("Extension pool exhausted for tenant " ++ t.name)) := by
  constructor
  · intro h
    obtain ⟨hlen, _hname, _hmin, _hmax, hext, hbounds, hpair⟩ := allocN_ok_spec N t xs t2 h
    refine ⟨?_, ?_, hlen, ?_⟩
    · rw [hext, hinit]
    · exact (hpair.imp (fun h => ne_of_lt h))
    · intro x hx
      obtain ⟨h1, h2⟩ := hbounds x hx
      rw [hinit] at h1
      exact ⟨h1, h2⟩
  · intro hrange
    have hcap : (((t.ext_max - t.ext_min + 1).toNat : Nat) : Int) =
        t.ext_max - t.ext_min + 1 := Int.toNat_of_nonneg (by omega)
    constructor
    · apply allocN_ok_of_le
      rw [hinit, hcap]
      omega
    · apply allocN_exhausted
      rw [hinit]
      push_cast [hcap]
      omega

/-- Witness for claim C3 on the two-extension sample tenant. -/
theorem extension_allocation_correct_witness :
    sampleTenant.ext_next = sampleTenant.ext_min ∧
    sampleTenant.ext_min ≤ sampleTenant.ext_max ∧
    ((∃ ys u, allocN sampleTenant ((sampleTenant.ext_max - sampleTenant.ext_min + 1).toNat) =
        Except.ok (ys, u)) ∧
      allocN sampleTenant ((sampleTenant.ext_max - sampleTenant.ext_min + 1).toNat + 1) =
        Except.error ("Extension pool exhausted for tenant " ++ sampleTenant.name)) :=
  ⟨rfl, by decide, (extension_allocation_correct sampleTenant 0 [] sampleTenant rfl).2 (by decide)⟩

/-- Claim C7: write_atomic either fully replaces the target with the new
content or leaves it untouched. A relative path raises ValueError with no
filesystem effect; a successful run leaves the new content at the target and
no temporary file; every failing run leaves the target with its prior content
and no temporary file; and the run succeeds exactly when no step failed, so
every failure is propagated as a typed error. -/
theorem write_atomic_all_or_nothing (o : WriterOracle) (content targetPath tmpPath : String)
    (fs : FS) (htmp : tmpPath ≠ targetPath) (hfresh : fs tmpPath = none) :
    (isAbs targetPath = false →
      AtomicFileWriter.write_atomic o content targetPath tmpPath fs =
        (fs, some (PyErr.valueError ("Target path must be absolute: " ++ targetPath)))) ∧
    ((AtomicFileWriter.write_atomic o content targetPath tmpPath fs).2 = none →
      (AtomicFileWriter.write_atomic o content targetPath tmpPath fs).1 targetPath = some content ∧
      (AtomicFileWriter.write_atomic o content targetPath tmpPath fs).1 tmpPath = none) ∧
    (∀ e, (AtomicFileWriter.write_atomic o content targetPath tmpPath fs).2 = some e →
      (AtomicFileWriter.write_atomic o content targetPath tmpPath fs).1 targetPath = fs targetPath ∧
      (AtomicFileWriter.write_atomic o content targetPath tmpPath fs).1 tmpPath = none) ∧
    ((AtomicFileWriter.write_atomic o content targetPath tmpPath fs).2 = none ↔
      (isAbs targetPath = true ∧ o.mkdirExc = none ∧ o.createExc = none ∧
       o.writeExc = none ∧ o.replaceExc = none)) := by
  by_cases habs : isAbs targetPath = true
  · cases hm : o.mkdirExc <;> cases hc : o.createExc <;> cases hw : o.writeExc <;>
      cases hr : o.replaceExc <;>
      simp [AtomicFileWriter.write_atomic, FS.set, habs, htmp, Ne.symm htmp, hfresh,
        hm, hc, hw, hr]
  · have habs2 : isAbs targetPath = false := by
      revert habs
      cases isAbs targetPath <;> simp
    simp [AtomicFileWriter.write_atomic, habs2, hfresh]

/-- Witness for claim C7 on a fault-free run over the sample filesystem. -/
theorem write_atomic_all_or_nothing_witness :
    sampleTmp ≠ sampleTarget ∧ sampleFs sampleTmp = none ∧
    ((isAbs sampleTarget = false →
      AtomicFileWriter.write_atomic sampleWriterOracle "; new dialplan" sampleTarget sampleTmp sampleFs =
        (sampleFs, some (PyErr.valueError ("Target path must be absolute: " ++ sampleTarget)))) ∧
    ((AtomicFileWriter.write_atomic sampleWriterOracle "; new dialplan" sampleTarget sampleTmp sampleFs).2 = none →
      (AtomicFileWriter.write_atomic sampleWriterOracle "; new dialplan" sampleTarget sampleTmp sampleFs).1 sampleTarget = some "; new dialplan" ∧
      (AtomicFileWriter.write_atomic sampleWriterOracle "; new dialplan" sampleTarget sampleTmp sampleFs).1 sampleTmp = none) ∧
    (∀ e, (AtomicFileWriter.write_atomic sampleWriterOracle "; new dialplan" sampleTarget sampleTmp sampleFs).2 = some e →
      (AtomicFileWriter.write_atomic sampleWriterOracle "; new dialplan" sampleTarget sampleTmp sampleFs).1 sampleTarget = sampleFs sampleTarget ∧
      (AtomicFileWriter.write_atomic sampleWriterOracle "; new dialplan" sampleTarget sampleTmp sampleFs).1 sampleTmp = none) ∧
    ((AtomicFileWriter.write_atomic sampleWriterOracle "; new dialplan" sampleTarget sampleTmp sampleFs).2 = none ↔
      (isAbs sampleTarget = true ∧ sampleWriterOracle.mkdirExc = none ∧
       sampleWriterOracle.createExc = none ∧ sampleWriterOracle.writeExc = none ∧
       sampleWriterOracle.replaceExc = none))) :=
  ⟨by decide, by decide,
   write_atomic_all_or_nothing sampleWriterOracle "; new dialplan" sampleTarget sampleTmp
     sampleFs (by decide) (by decide)⟩

/-- Claim C1: on the run in which every step succeeds until the Asterisk
reload reports failure, the published file is restored from the backup, but
the job record ends FAILED with the fixed text of the fail call, not
ROLLED_BACK: the rollback mark of the ApplyJob model is never used by the
service, contradicting the documented status lifecycle of the model. -/
theorem reload_failure_marks_failed_not_rolled_back :
    (EnhancedApplyService.apply_configuration_safe sampleReloadFailOracle false
        "; new dialplan" sampleWorld).world.published = some "; old dialplan" ∧
    (EnhancedApplyService.apply_configuration_safe sampleReloadFailOracle false
        "; new dialplan" sampleWorld).job.status = ApplyStatus.FAILED ∧
    (EnhancedApplyService.apply_configuration_safe sampleReloadFailOracle false
        "; new dialplan" sampleWorld).job.status ≠ ApplyStatus.ROLLED_BACK ∧
    (EnhancedApplyService.apply_configuration_safe sampleReloadFailOracle false
        "; new dialplan" sampleWorld).job.error_text = some "Asterisk reload failed" := by
  refine ⟨by decide, by decide, by decide, by decide⟩

/-- Projection of the release step: the finally-branch of an acquired lock
always leaves the lock free. -/
theorem finallyBranch_releases (r : EnhResult) :
    (EnhancedApplyService.finallyBranch true r).world.lockHeld = false := by
  simp [EnhancedApplyService.finallyBranch]

/-- Claim C2: both orchestrators release the cluster advisory lock on every
control-flow path of a run that acquired it, whatever combination of
validation failure, reload failure and unexpected step exceptions occurs. -/
theorem apply_lock_released_on_every_path :
    (∀ (o : EnhOracle) (force : Bool) (newCfg : String) (w : EnhWorld),
        o.lockAvailable = true →
        (EnhancedApplyService.apply_configuration_safe o force newCfg w).world.lockHeld = false) ∧
    (∀ o : OldOracle, o.lockAvailable = true →
        (ApplyService.apply_configuration o).lockHeld = false) := by
  constructor
  · intro o force newCfg w h
    simp only [EnhancedApplyService.apply_configuration_safe, h]
    repeat' split
    all_goals first
      | exact finallyBranch_releases _
      | simp_all [EnhancedApplyService.finallyBranch]
  · intro o h
    simp only [ApplyService.apply_configuration, h]
    repeat' split
    all_goals simp_all [ApplyService.oldFinish]

/-- Witness for claim C2 on concrete all-success runs of both services. -/
theorem apply_lock_released_on_every_path_witness :
    sampleEnhOracle.lockAvailable = true ∧
    (EnhancedApplyService.apply_configuration_safe sampleEnhOracle false "; new dialplan"
        sampleWorld).world.lockHeld = false ∧
    sampleOldOracle.lockAvailable = true ∧
    (ApplyService.apply_configuration sampleOldOracle).lockHeld = false :=
  ⟨rfl,
   apply_lock_released_on_every_path.1 sampleEnhOracle false "; new dialplan" sampleWorld rfl,
   rfl,
   apply_lock_released_on_every_path.2 sampleOldOracle rfl⟩

/-- The per-tenant error checks never read the allocation cursor. -/
theorem tenantErrors_ext_next (users : List VUser) (t : VTenant) (x : Int) :
    ApplyService.tenantErrors users { t with ext_next := x } =
      ApplyService.tenantErrors users t := rfl

/-- The error list of the tenant loop is invariant under any reassignment of
the allocation cursors. -/
theorem collectErrors_ext_next (users : List VUser) (f : VTenant → Int) :
    ∀ tenants : List VTenant,
      ApplyService.collectErrors users (tenants.map (fun t => { t with ext_next := f t })) =
        ApplyService.collectErrors users tenants := by
  intro tenants
  induction tenants with
  | nil => rfl
  | cons t ts ih =>
    simp only [List.map_cons, ApplyService.collectErrors]
    rw [tenantErrors_ext_next users t (f t), ih]

/-- A tenant of the list whose cursor ran past the range end contributes its
warning line to the collected warnings. -/
theorem collectWarnings_mem (t : VTenant) (hcond : t.ext_next > t.ext_max + 1) :
    ∀ tenants : List VTenant, t ∈ tenants →
      ("Tenant " ++ t.name ++ " ext_next (" ++ toString t.ext_next ++
        ") exceeds range (" ++ toString t.ext_min ++ "-" ++ toString t.ext_max ++ ")") ∈
        ApplyService.collectWarnings tenants := by
  intro tenants
  induction tenants with
  | nil => intro h; exact absurd h (List.not_mem_nil t)
  | cons t1 ts ih =>
    intro hmem
    rcases List.mem_cons.mp hmem with hmem | hmem
    · subst hmem
      simp only [ApplyService.collectWarnings, ApplyService.tenantWarnings, hcond, if_pos]
      exact List.mem_append_left _ (List.mem_singleton_self _)
    · exact List.mem_append_right _ (ih hmem)

/-- The safe apply orchestrator reads only the valid flag and the error list
of the validation result. -/
theorem apply_validation_congr (o : EnhOracle) (v1 v2 : ValidationResult)
    (force : Bool) (newCfg : String) (w : EnhWorld)
    (hv : v1.valid = v2.valid) (he : v1.errors = v2.errors) :
    EnhancedApplyService.apply_configuration_safe { o with validation := v1 } force newCfg w =
      EnhancedApplyService.apply_configuration_safe { o with validation := v2 } force newCfg w := by
  simp only [EnhancedApplyService.apply_configuration_safe, hv, he]

/-- Claim C10: the validator returns valid exactly when its error list is
empty; a cursor past the range end changes neither the error list nor, through
the validation result, the behavior of the safe apply, while contributing a
warning; so that condition alone never blocks an apply. -/
theorem validation_cursor_overrun_only_warns :
    (∀ (users : List VUser) (tenants : List VTenant),
        (ApplyService.validate_configuration users tenants).valid = true ↔
          (ApplyService.validate_configuration users tenants).errors = []) ∧
    (∀ (users : List VUser) (tenants : List VTenant) (f : VTenant → Int),
        (ApplyService.validate_configuration users
            (tenants.map (fun t => { t with ext_next := f t }))).errors =
          (ApplyService.validate_configuration users tenants).errors) ∧
    (∀ (users : List VUser) (tenants : List VTenant) (t : VTenant), t ∈ tenants →
        t.ext_next > t.ext_max + 1 →
        ("Tenant " ++ t.name ++ " ext_next (" ++ toString t.ext_next ++
          ") exceeds range (" ++ toString t.ext_min ++ "-" ++ toString t.ext_max ++ ")") ∈
          (ApplyService.validate_configuration users tenants).warnings) ∧
    (∀ (o : EnhOracle) (users : List VUser) (tenants : List VTenant) (f : VTenant → Int)
        (force : Bool) (newCfg : String) (w : EnhWorld),
        EnhancedApplyService.apply_configuration_safe
            { o with validation := ApplyService.validate_configuration users (tenants.map (fun t => { t with ext_next := f t })) } force newCfg w =
          EnhancedApplyService.apply_configuration_safe
            { o with validation := ApplyService.validate_configuration users tenants }
            force newCfg w) := by
  refine ⟨?_, ?_, ?_, ?_⟩
  · intro users tenants
    simp [ApplyService.validate_configuration, List.isEmpty_iff]
  · intro users tenants f
    simp only [ApplyService.validate_configuration]
    rw [collectErrors_ext_next]
  · intro users tenants t hmem hcond
    simp only [ApplyService.validate_configuration]
    exact collectWarnings_mem t hcond tenants hmem
  · intro o users tenants f force newCfg w
    apply apply_validation_congr
    · simp only [ApplyService.validate_configuration]
      rw [collectErrors_ext_next]
    · simp only [ApplyService.validate_configuration]
      rw [collectErrors_ext_next]

/-- Witness for claim C10 on the sample tenant whose cursor ran past the
range end: the apply is not blocked and only a warning is recorded. -/
theorem validation_cursor_overrun_only_warns_witness :
    ({ id := 1, name := "acme", ext_min := 1000, ext_max := 1010, ext_next := 1020 } : VTenant)
        ∈ sampleVTenants ∧
    (1020 : Int) > 1010 + 1 ∧
    ("Tenant " ++ "acme" ++ " ext_next (" ++ toString (1020 : Int) ++
      ") exceeds range (" ++ toString (1000 : Int) ++ "-" ++ toString (1010 : Int) ++ ")") ∈
      (ApplyService.validate_configuration [] sampleVTenants).warnings := by
  refine ⟨by decide, by decide, ?_⟩
  exact validation_cursor_overrun_only_warns.2.2.1 [] sampleVTenants
    { id := 1, name := "acme", ext_min := 1000, ext_max := 1010, ext_next := 1020 }
    (by decide) (by decide)

/-- The import error list is empty exactly when no batch member is offending. -/
theorem importErrors_nil_iff (db : List PN) (dids : List DIDImportItem) :
    DIDService.importErrors db dids = [] ↔
      ∀ d ∈ dids, DIDService.offendingB db d = false := by
  simp only [DIDService.importErrors, DIDService.offendingB, List.append_eq_nil,
    List.map_eq_nil_iff, List.filter_eq_nil_iff]
  constructor
  · rintro ⟨h1, h2⟩ d hd
    simp only [Bool.or_eq_false_iff, Bool.not_eq_true']
    have hv := h1 d hd
    have hc := h2 d hd
    simp only [Bool.not_eq_true, Bool.not_eq_true'] at hv
    constructor
    · simpa using hv
    · simpa using hc
  · intro h
    constructor
    · intro d hd
      have := h d hd
      simp only [Bool.or_eq_false_iff] at this
      simp [this.1]
    · intro d hd
      have := h d hd
      simp only [Bool.or_eq_false_iff] at this
      simpa using this.2

/-- Every entry of the import error list names an offending batch member, and
every offending batch member has an entry naming its number. -/
theorem importErrors_correspondence (db : List PN) (dids : List DIDImportItem) :
    (∀ e ∈ DIDService.importErrors db dids,
      ∃ d ∈ dids, DIDService.offendingB db d = true ∧ e.number = d.number) ∧
    (∀ d ∈ dids, DIDService.offendingB db d = true →
      ∃ e ∈ DIDService.importErrors db dids, e.number = d.number) := by
  constructor
  · intro e he
    rcases List.mem_append.mp he with he | he
    · obtain ⟨d, hd, rfl⟩ := List.mem_map.mp he
      obtain ⟨hd1, hd2⟩ := List.mem_filter.mp hd
      refine ⟨d, hd1, ?_, rfl⟩
      simp only [DIDService.offendingB, hd2, Bool.true_or]
    · obtain ⟨d, hd, rfl⟩ := List.mem_map.mp he
      obtain ⟨hd1, hd2⟩ := List.mem_filter.mp hd
      refine ⟨d, hd1, ?_, rfl⟩
      simp only [DIDService.offendingB, hd2, Bool.or_true]
  · intro d hd hoff
    simp only [DIDService.offendingB, Bool.or_eq_true] at hoff
    rcases hoff with hoff | hoff
    · refine ⟨{ number := d.number, error := "Invalid E.164 format" }, ?_, rfl⟩
      apply List.mem_append_left
      exact List.mem_map.mpr ⟨d, List.mem_filter.mpr ⟨hd, hoff⟩, rfl⟩
    · refine ⟨{ number := d.number, error := "Duplicate number already exists" }, ?_, rfl⟩
      apply List.mem_append_right
      exact List.mem_map.mpr ⟨d, List.mem_filter.mpr ⟨hd, hoff⟩, rfl⟩

/-- The created rows are one per input. -/
theorem importRecords_length (dids : List DIDImportItem) (baseId : Nat) :
    (DIDService.importRecords dids baseId).length = dids.length := by
  simp [DIDService.importRecords]

/-- Every created row is UNASSIGNED with no tenant. -/
theorem importRecords_fields (dids : List DIDImportItem) (baseId : Nat) :
    ∀ r ∈ DIDService.importRecords dids baseId,
      r.status = PNStatus.UNASSIGNED ∧ r.tenant_id = none := by
  intro r hr
  obtain ⟨p, _, rfl⟩ := List.mem_map.mp hr
  exact ⟨rfl, rfl⟩

/-- Claim C4: an import batch with at least one offending member, wherever it
sits in the batch, creates no row and returns count 0 with an error list in
one-to-one correspondence with the offending numbers; rows are created only
by a batch with no offending member, one row per input, each UNASSIGNED with
no tenant. -/
theorem did_import_all_or_nothing (db : List PN) (dids : List DIDImportItem) (baseId : Nat) :
    ((∃ d ∈ dids, DIDService.offendingB db d = true) →
      DIDService.importDids db dids baseId =
        (db, Except.ok (0, DIDService.importErrors db dids)) ∧
      DIDService.importErrors db dids ≠ [] ∧
      (∀ d ∈ dids, DIDService.offendingB db d = true →
        ∃ e ∈ DIDService.importErrors db dids, e.number = d.number) ∧
      (∀ e ∈ DIDService.importErrors db dids,
        ∃ d ∈ dids, DIDService.offendingB db d = true ∧ e.number = d.number)) ∧
    (∀ db2 res, DIDService.importDids db dids baseId = (db2, res) → db2 ≠ db →
      (∀ d ∈ dids, DIDService.offendingB db d = false) ∧
      db2 = db ++ DIDService.importRecords dids baseId ∧
      res = Except.ok (dids.length, []) ∧
      (DIDService.importRecords dids baseId).length = dids.length ∧
      (∀ r ∈ DIDService.importRecords dids baseId,
        r.status = PNStatus.UNASSIGNED ∧ r.tenant_id = none)) := by
  constructor
  · rintro ⟨d0, hd0, hoff0⟩
    have hne : DIDService.importErrors db dids ≠ [] := by
      intro hnil
      have := (importErrors_nil_iff db dids).mp hnil d0 hd0
      rw [this] at hoff0
      exact absurd hoff0 (by simp)
    have hempty : (DIDService.importErrors db dids).isEmpty = false := by
      cases hcase : (DIDService.importErrors db dids).isEmpty
      · rfl
      · exact absurd (List.isEmpty_iff.mp hcase) hne
    refine ⟨?_, hne, (importErrors_correspondence db dids).2,
      (importErrors_correspondence db dids).1⟩
    simp [DIDService.importDids, hempty]
  · intro db2 res heq hne2
    cases hcase : (DIDService.importErrors db dids).isEmpty with
    | false =>
      simp only [DIDService.importDids, hcase, Bool.false_eq_true, if_false] at heq
      injection heq with h1 h2
      exact absurd h1.symm hne2
    | true =>
      have hnone := importErrors_nil_iff db dids |>.mp (List.isEmpty_iff.mp hcase)
      cases hdup : listHasDup ((db ++ DIDService.importRecords dids baseId).map
          (fun p => p.number)) with
      | true =>
        simp only [DIDService.importDids, hcase, if_true, hdup] at heq
        injection heq with h1 h2
        exact absurd h1.symm hne2
      | false =>
        simp only [DIDService.importDids, hcase, if_true, hdup] at heq
        injection heq with h1 h2
        exact ⟨hnone, h1.symm, h2.symm, importRecords_length dids baseId,
          importRecords_fields dids baseId⟩

/-- Witness for claim C4: importing the sample batch, whose second number is
not E.164, creates nothing and reports it. -/
theorem did_import_all_or_nothing_witness :
    (∃ d ∈ sampleBatch, DIDService.offendingB sampleImportDb d = true) ∧
    (DIDService.importDids sampleImportDb sampleBatch 10 =
        (sampleImportDb, Except.ok (0, DIDService.importErrors sampleImportDb sampleBatch)) ∧
      DIDService.importErrors sampleImportDb sampleBatch ≠ [] ∧
      (∀ d ∈ sampleBatch, DIDService.offendingB sampleImportDb d = true →
        ∃ e ∈ DIDService.importErrors sampleImportDb sampleBatch, e.number = d.number) ∧
      (∀ e ∈ DIDService.importErrors sampleImportDb sampleBatch,
        ∃ d ∈ sampleBatch, DIDService.offendingB sampleImportDb d = true ∧
          e.number = d.number)) :=
  ⟨by decide, (did_import_all_or_nothing sampleImportDb sampleBatch 10).1 (by decide)⟩

end PBXPortal
